import Mathlib

/-!
Verification of the resource-slice mixin-resolution and validation core.

The development shallowly embeds, in Lean, the Go code of this repository:

* `Convert_string_To_api_UniqueString` / `Convert_api_UniqueString_To_string`
  from `staging/src/k8s.io/dynamic-resource-allocation/api/conversion.go`;
* the four `DeviceRequest` conversion functions for the `v1beta1` and
  `v1alpha3` API versions;
* the mixin merge engine, resource-slice validator (structural limits,
  exactly-one-of checks, qualified-name validation, reference-graph cycle
  detection) and the REST strategy's feature-gated field stripping.  The
  implementations of these last components are not among the provided
  sources (only their tests are), so they are modelled from the spec;
  each such definition carries a doc comment saying so.

Maps (Go `map[K]V`) are embedded as association lists without duplicate
keys; machine integers that can never overflow in the validated domain
(counts bounded by 128, lengths bounded by 253) are embedded as `Nat`/`Int`.
-/

/-! ## UniqueString conversion (`conversion.go`) -/

/-- `UniqueString` wraps Go's `unique.Handle[string]`; the zero value
`NullUniqueString` is embedded as `none`, a live handle for `s` as `some s`. -/
abbrev UniqueString : Type := Option String

/-- The zero `UniqueString` handle. -/
def NullUniqueString : UniqueString := none

/-- `MakeUniqueString` / `unique.Make`. -/
def MakeUniqueString (s : String) : UniqueString := some s

/-- The `String()` method of a non-null handle returns the interned string. -/
def UniqueString.str : UniqueString → String
  | none => ""
  | some s => s

/-- `Convert_api_UniqueString_To_string`: the null handle becomes `""`,
otherwise the handle's string is returned; the Go error result is always nil,
embedded as `Except` that is always `ok`. -/
def Convert_api_UniqueString_To_string (inp : UniqueString) : Except String String :=
  if inp = NullUniqueString then
    .ok ""
  else
    .ok inp.str

/-- `Convert_string_To_api_UniqueString`: `""` becomes the null handle,
otherwise a live handle is made with `unique.Make`. -/
def Convert_string_To_api_UniqueString (inp : String) : Except String UniqueString :=
  if inp = "" then
    .ok NullUniqueString
  else
    .ok (MakeUniqueString inp)

/-! ## DeviceRequest conversion (`v1beta1` and `v1alpha3` schemes)

The versioned (`v1beta1.DeviceRequest`, `v1alpha3.DeviceRequest`) and the
internal (`resource.DeviceRequest`) request shapes.  The two versioned Go
types are field-for-field identical, so one Lean structure embeds both; the
four conversion functions are embedded separately, mirroring their sources.
Device selectors and subrequests are converted field-for-field by helper
conversions with no logic, so they are embedded as an opaque payload; the
zero value produced by Go's `make` is `DeviceSelector.zero`. -/

structure DeviceSelector where
  cel : Option String
deriving DecidableEq

/-- The zero `DeviceSelector` that `make([]DeviceSelector, n)` fills in. -/
def DeviceSelector.zero : DeviceSelector := ⟨none⟩

/-- The mechanical `Convert_*_DeviceSelector_*` helpers copy every field. -/
def convertDeviceSelector (s : DeviceSelector) : DeviceSelector := s

/-- The mechanical `Convert_*_DeviceSubRequest_*` helpers copy every field;
subrequests are embedded as an opaque payload. -/
def convertDeviceSubRequest (s : String) : String := s

def DeviceAllocationModeAll : String := "All"

def DeviceAllocationModeExactCount : String := "ExactCount"

/-- A versioned (`v1beta1` / `v1alpha3`) `DeviceRequest`.  `Selectors` is a
Go slice whose nil-ness is observable, hence `Option (List _)`. -/
structure VersionedDeviceRequest where
  name : String
  deviceClassName : String
  firstAvailable : List String
  selectors : Option (List DeviceSelector)
  allocationMode : String
  count : Int
deriving DecidableEq

/-- The internal `resource.SpecificDeviceRequest`. -/
structure SpecificDeviceRequest where
  deviceClassName : String
  selectors : Option (List DeviceSelector)
  allocationMode : String
  count : Int
deriving DecidableEq

/-- The internal `resource.DeviceRequest`: `FirstAvailable` and `Exactly`
are pointers/slices whose nil-ness is observable. -/
structure InternalDeviceRequest where
  name : String
  firstAvailable : Option (List String)
  exactly : Option SpecificDeviceRequest
deriving DecidableEq

/-- Appending to a possibly-nil Go slice: appending to nil allocates. -/
def goAppend (l : Option (List α)) (x : α) : Option (List α) :=
  match l with
  | none => some [x]
  | some xs => some (xs ++ [x])

/-- `Convert_v1beta1_DeviceRequest_To_resource_DeviceRequest`
(`src/unnamed/part_001`): when `DeviceClassName` is empty the
`FirstAvailable` subrequests are converted; otherwise a
`SpecificDeviceRequest` is built.  The selectors slice is created with
`make` of the input length and then appended to in the loop. -/
def Convert_v1beta1_DeviceRequest_To_resource_DeviceRequest
    (inp : VersionedDeviceRequest) : Except String InternalDeviceRequest :=
  if inp.deviceClassName = "" then
    .ok { name := inp.name
          firstAvailable := inp.firstAvailable.foldl
            (fun acc sub => goAppend acc (convertDeviceSubRequest sub)) none
          exactly := none }
  else
    let sels : Option (List DeviceSelector) :=
      match inp.selectors with
      | some ss =>
          some (ss.foldl (fun acc sel => acc ++ [convertDeviceSelector sel])
            (List.replicate ss.length DeviceSelector.zero))
      | none => none
    if inp.allocationMode = DeviceAllocationModeAll ∨
        inp.allocationMode = DeviceAllocationModeExactCount then
      .ok { name := inp.name
            firstAvailable := none
            exactly := some
              { deviceClassName := inp.deviceClassName
                selectors := sels
                allocationMode := inp.allocationMode
                count := inp.count } }
    else
      .error ("unknown device allocation mode " ++ inp.allocationMode)

/-- `Convert_resource_DeviceRequest_To_v1beta1_DeviceRequest`
(`src/unnamed/part_001`): a non-nil `FirstAvailable` is converted and the
function returns early; otherwise `Exactly` is dereferenced (`none` would be
a nil-pointer panic in Go, embedded as an error) and the selectors slice is
again created with `make` and appended to. -/
def Convert_resource_DeviceRequest_To_v1beta1_DeviceRequest
    (inp : InternalDeviceRequest) : Except String VersionedDeviceRequest :=
  match inp.firstAvailable with
  | some fa =>
      .ok { name := inp.name
            deviceClassName := ""
            firstAvailable := fa.map convertDeviceSubRequest
            selectors := none
            allocationMode := ""
            count := 0 }
  | none =>
    match inp.exactly with
    | none => .error "nil pointer dereference"
    | some ex =>
      let sels : Option (List DeviceSelector) :=
        match ex.selectors with
        | some ss =>
            some (ss.foldl (fun acc sel => acc ++ [convertDeviceSelector sel])
              (List.replicate ss.length DeviceSelector.zero))
        | none => none
      if ex.allocationMode = DeviceAllocationModeAll ∨
          ex.allocationMode = DeviceAllocationModeExactCount then
        .ok { name := inp.name
              deviceClassName := ex.deviceClassName
              firstAvailable := []
              selectors := sels
              allocationMode := ex.allocationMode
              count := ex.count }
      else
        .error ("unknown device allocation mode " ++ ex.allocationMode)

/-- `Convert_v1alpha3_DeviceRequest_To_resource_DeviceRequest`
(`src/unnamed/part_002`): textually the same algorithm as the `v1beta1`
direction, over the `v1alpha3` schema. -/
def Convert_v1alpha3_DeviceRequest_To_resource_DeviceRequest
    (inp : VersionedDeviceRequest) : Except String InternalDeviceRequest :=
  if inp.deviceClassName = "" then
    .ok { name := inp.name
          firstAvailable := inp.firstAvailable.foldl
            (fun acc sub => goAppend acc (convertDeviceSubRequest sub)) none
          exactly := none }
  else
    let sels : Option (List DeviceSelector) :=
      match inp.selectors with
      | some ss =>
          some (ss.foldl (fun acc sel => acc ++ [convertDeviceSelector sel])
            (List.replicate ss.length DeviceSelector.zero))
      | none => none
    if inp.allocationMode = DeviceAllocationModeAll ∨
        inp.allocationMode = DeviceAllocationModeExactCount then
      .ok { name := inp.name
            firstAvailable := none
            exactly := some
              { deviceClassName := inp.deviceClassName
                selectors := sels
                allocationMode := inp.allocationMode
                count := inp.count } }
    else
      .error ("unknown device allocation mode " ++ inp.allocationMode)

/-- `Convert_resource_DeviceRequest_To_v1alpha3_DeviceRequest`
(`src/unnamed/part_002`): textually the same algorithm as the `v1beta1`
direction, over the `v1alpha3` schema. -/
def Convert_resource_DeviceRequest_To_v1alpha3_DeviceRequest
    (inp : InternalDeviceRequest) : Except String VersionedDeviceRequest :=
  match inp.firstAvailable with
  | some fa =>
      .ok { name := inp.name
            deviceClassName := ""
            firstAvailable := fa.map convertDeviceSubRequest
            selectors := none
            allocationMode := ""
            count := 0 }
  | none =>
    match inp.exactly with
    | none => .error "nil pointer dereference"
    | some ex =>
      let sels : Option (List DeviceSelector) :=
        match ex.selectors with
        | some ss =>
            some (ss.foldl (fun acc sel => acc ++ [convertDeviceSelector sel])
              (List.replicate ss.length DeviceSelector.zero))
        | none => none
      if ex.allocationMode = DeviceAllocationModeAll ∨
          ex.allocationMode = DeviceAllocationModeExactCount then
        .ok { name := inp.name
              deviceClassName := ex.deviceClassName
              firstAvailable := []
              selectors := sels
              allocationMode := ex.allocationMode
              count := ex.count }
      else
        .error ("unknown device allocation mode " ++ ex.allocationMode)

/-- The selectors of a successful conversion to the internal request. -/
def internalSelectorsOf (r : Except String InternalDeviceRequest) :
    Option (List DeviceSelector) :=
  match r with
  | .ok o => o.exactly.bind (fun ex => ex.selectors)
  | .error _ => none

/-- The selectors of a successful conversion to a versioned request. -/
def versionedSelectorsOf (r : Except String VersionedDeviceRequest) :
    Option (List DeviceSelector) :=
  match r with
  | .ok o => o.selectors
  | .error _ => none

/-! ## Mixin merge engine

Modelled from the spec: the flattening pass
(`Convert_v1beta1_ResourceSlice_To_api_ResourceSlice` and the per-entity
resolution it performs) is exercised by
`staging/src/k8s.io/dynamic-resource-allocation/api/conversion_test.go` but
its implementation is not among the provided sources.  Section 4.2 of the
spec defines it: start from an empty accumulator, iterate the entity's
`Includes` list in document order, look each name up in the mixin table
(absent names are skipped), set every key of the found mixin into the
accumulator (later mixin wins), then overlay the entity's own map (entity
wins).  The same algorithm serves devices, counter sets and device counter
consumptions, so it is embedded once, generically in the value type. -/

/-- A Go `map` keyed by qualified names / counter names, embedded as an
association list.  Well-formed maps have no duplicate keys. -/
abbrev FieldMap (V : Type) : Type := List (String × V)

/-- Map lookup. -/
def lookupKey {V : Type} : FieldMap V → String → Option V
  | [], _ => none
  | (k', v) :: rest, k => if k' = k then some v else lookupKey rest k

/-- Map assignment `m[k] = v`: overwrite the binding if the key is present,
append a new binding otherwise. -/
def setKey {V : Type} : FieldMap V → String → V → FieldMap V
  | [], k, v => [(k, v)]
  | (k', v') :: rest, k, v =>
      if k' = k then (k, v) :: rest else (k', v') :: setKey rest k v

/-- The map has no duplicate keys (Go map invariant). -/
def keysNodup {V : Type} (m : FieldMap V) : Prop := (m.map Prod.fst).Nodup

instance {V : Type} (m : FieldMap V) : Decidable (keysNodup m) :=
  inferInstanceAs (Decidable ((m.map Prod.fst).Nodup))

/-- Modelled from the spec: `merge(base, layer)` unconditionally sets every
key of `layer` into `base` (spec section 4.2). -/
def mergeLayer {V : Type} (base layer : FieldMap V) : FieldMap V :=
  layer.foldl (fun acc p => setKey acc p.1 p.2) base

/-- The mixin table: named mixins of one kind, looked up exactly by name. -/
def lookupMixin {V : Type} : List (String × FieldMap V) → String → Option (FieldMap V)
  | [], _ => none
  | (n, m) :: rest, name => if n = name then some m else lookupMixin rest name

/-- Modelled from the spec: `ResolveDevice` / `ResolveCounterSet` /
`ResolveCounterConsumption` (spec section 4.2).  Folds the entity's
`Includes` list in document order over an empty accumulator, skipping
unresolved names, then overlays the entity's own map. -/
def resolveEntity {V : Type} (table : List (String × FieldMap V))
    (includes : List String) (own : FieldMap V) : FieldMap V :=
  mergeLayer
    (includes.foldl
      (fun acc name =>
        match lookupMixin table name with
        | some m => mergeLayer acc m
        | none => acc)
      [])
    own

/-- The mixin layers an `Includes` list resolves to, in document order;
names missing from the table are skipped, as `resolveEntity` skips them. -/
def resolvedLayers {V : Type} (table : List (String × FieldMap V))
    (includes : List String) : List (FieldMap V) :=
  includes.filterMap (lookupMixin table)

/-- Lookup across a stack of layers, the later (rightmost) layer winning:
the reference value of folding `mergeLayer` over the layers. -/
def layersLookup {V : Type} : List (FieldMap V) → String → Option V
  | [], _ => none
  | m :: ls, k => (layersLookup ls k).or (lookupKey m k)

/-! ## Identifier validator

Modelled from the spec: `ValidateResourceSlice` and its helpers live in
`pkg/apis/resource/validation`, which is exercised by the validation tests in
`src/unnamed/part_001` but is not among the provided sources.  Sections 4.1,
4.3, 4.4 and 4.5 of the spec define the identifier validator, the reference
graph builder, the cycle detector and the slice validator orchestration
modelled here.  Structured field errors carry a path, the offending value
rendered as a string, and a human-readable detail (spec section 6). -/

inductive ErrorKind where
  | invalid
  | required
  | duplicate
  | tooMany
  | tooLong
  | typeInvalid
deriving DecidableEq

structure FieldError where
  kind : ErrorKind
  path : String
  badValue : String
  detail : String
deriving DecidableEq

def ResourceSliceMaxDevicesAndMixins : Nat := 128

def ResourceSliceMaxAttributesAndCapacitiesPerDevice : Nat := 32

def ResourceSliceMaxMixinRefs : Nat := 8

def PoolNameMaxLength : Nat := 253

def DeviceMaxDomainLength : Nat := 63

def DeviceMaxIDLength : Nat := 32

def DeviceAttributeMaxValueLength : Nat := 64

def isLowerAlnum (c : Char) : Bool :=
  (('a' ≤ c) && (c ≤ 'z')) || (('0' ≤ c) && (c ≤ '9'))

def isAlphaChar (c : Char) : Bool :=
  (('a' ≤ c) && (c ≤ 'z')) || (('A' ≤ c) && (c ≤ 'Z'))

def isDigitChar (c : Char) : Bool :=
  ('0' ≤ c) && (c ≤ '9')

/-- Lowercase RFC 1123 label: `[a-z0-9]([-a-z0-9]*[a-z0-9])?`, at most 63
characters (spec section 4.1). -/
def isRFC1123Label (s : String) : Bool :=
  match s.toList with
  | [] => false
  | c :: cs =>
      (c :: cs).length ≤ 63 &&
      isLowerAlnum c &&
      isLowerAlnum (cs.getLastD c) &&
      (c :: cs).all (fun x => isLowerAlnum x || x = '-')

/-- Splitting a string at every occurrence of a separator character
(`strings.Split`); written recursively over the character list so that it
evaluates inside the kernel. -/
def splitCharsAux (sep : Char) : List Char → List Char → List String
  | [], acc => [String.mk acc.reverse]
  | c :: rest, acc =>
      if c = sep then String.mk acc.reverse :: splitCharsAux sep rest []
      else splitCharsAux sep rest (c :: acc)

/-- Splitting a string at a separator character. -/
def splitOnChar (sep : Char) (s : String) : List String :=
  splitCharsAux sep s.toList []

/-- Lowercase RFC 1123 subdomain: dot-separated labels, at most 253
characters in total (spec section 4.1). -/
def isRFC1123Subdomain (s : String) : Bool :=
  s ≠ "" &&
  s.length ≤ 253 &&
  (splitOnChar '.' s).all isRFC1123Label

/-- C identifier: `[A-Za-z_][A-Za-z0-9_]*` (spec section 4.1). -/
def isCIdentifier (s : String) : Bool :=
  match s.toList with
  | [] => false
  | c :: cs =>
      (isAlphaChar c || c = '_') &&
      cs.all (fun x => isAlphaChar x || isDigitChar x || x = '_')

def rfc1123LabelMsg : String :=
  "a lowercase RFC 1123 label must consist of lower case alphanumeric characters or '-', and must start and end with an alphanumeric character"

def rfc1123SubdomainMsg : String :=
  "a lowercase RFC 1123 subdomain must consist of lower case alphanumeric characters, '-' or '.', and must start and end with an alphanumeric character"

def cIdentifierMsg : String :=
  "a valid C identifier must start with alphabetic character or '_', followed by a string of alphanumeric characters or '_'"

/-- Modelled from the spec: the `domain/` prefix of a qualified name is a
bounded RFC 1123 subdomain; an empty domain part is its own "must not be
empty" error (spec section 4.1). -/
def validateDomainPart (path domain : String) : List FieldError :=
  if domain = "" then
    [⟨.required, path, "", "the domain must not be empty"⟩]
  else
    (if domain.length > DeviceMaxDomainLength then
      [⟨.tooLong, path, domain, "must be no more than 63 bytes"⟩]
    else []) ++
    (if isRFC1123Subdomain domain then [] else [⟨.invalid, path, domain, rfc1123SubdomainMsg⟩])

/-- Modelled from the spec: the identifier part of a qualified name is a
bounded C identifier; an empty identifier part is its own "must not be
empty" error, reported independently of the domain part (spec section 4.1). -/
def validateNamePart (path name : String) : List FieldError :=
  if name = "" then
    [⟨.required, path, "", "the name must not be empty"⟩]
  else
    (if name.length > DeviceMaxIDLength then
      [⟨.tooLong, path, name, "must be no more than 32 bytes"⟩]
    else []) ++
    (if isCIdentifier name then [] else [⟨.typeInvalid, path, name, cIdentifierMsg⟩])

/-- Modelled from the spec: attribute/capacity keys are an optional
`domain/` prefix followed by a mandatory identifier; the two parts are
validated independently (spec section 4.1). -/
def validateQualifiedName (path key : String) : List FieldError :=
  match splitOnChar '/' key with
  | [name] => validateNamePart path name
  | [domain, name] => validateDomainPart path domain ++ validateNamePart path name
  | _ => [⟨.invalid, path, key, "must not contain more than one /"⟩]

/-! ## Attribute and capacity validation (spec section 4.5 item f) -/

structure DeviceAttribute where
  intValue : Option Int
  boolValue : Option Bool
  stringValue : Option String
  versionValue : Option String
deriving DecidableEq

/-- A decimal-digit string (one component of a semver version). -/
def isNatString (s : String) : Bool :=
  s ≠ "" && s.toList.all isDigitChar

/-- Modelled from the spec: a semver-string attribute value must be
compatible with semver.org spec 2.0.0; the bounded domain validated here
uses plain `major.minor.patch` numeric versions. -/
def isSemver (s : String) : Bool :=
  match splitOnChar '.' s with
  | [a, b, c] => isNatString a && isNatString b && isNatString c
  | _ => false

/-- How many of the four attribute value alternatives are set. -/
def attributeValueCount (a : DeviceAttribute) : Nat :=
  (if a.intValue.isSome then 1 else 0) +
  (if a.boolValue.isSome then 1 else 0) +
  (if a.stringValue.isSome then 1 else 0) +
  (if a.versionValue.isSome then 1 else 0)

/-- Modelled from the spec: exactly one of the attribute's scalar values
must be set (spec section 3), version and string values are bounded. -/
def validateDeviceAttribute (path : String) (a : DeviceAttribute) : List FieldError :=
  (if attributeValueCount a = 0 then
    [⟨.required, path, "", "exactly one value must be specified"⟩]
  else if attributeValueCount a > 1 then
    [⟨.invalid, path, "", "exactly one value must be specified"⟩]
  else []) ++
  (match a.versionValue with
   | some v =>
      (if isSemver v then [] else
        [⟨.invalid, path ++ ".version", v, "must be a string compatible with semver.org spec 2.0.0"⟩]) ++
      (if v.length > DeviceAttributeMaxValueLength then
        [⟨.tooLong, path ++ ".version", v, "must be no more than 64 bytes"⟩]
      else [])
   | none => []) ++
  (match a.stringValue with
   | some v =>
      if v.length > DeviceAttributeMaxValueLength then
        [⟨.tooLong, path ++ ".string", v, "must be no more than 64 bytes"⟩]
      else []
   | none => [])

/-- Modelled from the spec: a capacity is a well-formed non-negative
quantity (spec section 4.5 item f); quantities are embedded as integers. -/
def validateDeviceCapacity (path : String) (v : Int) : List FieldError :=
  if v < 0 then [⟨.invalid, path, toString v, "must not be negative"⟩] else []

/-- Modelled from the spec: per-entity attribute/capacity validation — each
key through the identifier validator, each attribute and capacity through
its own check, and the combined count against the per-entity ceiling of 32
(spec section 4.5 item f). -/
def validateDeviceContent (path : String) (attrs : FieldMap DeviceAttribute)
    (caps : FieldMap Int) : List FieldError :=
  (attrs.map (fun kv =>
      validateQualifiedName (path ++ ".attributes[" ++ kv.1 ++ "]") kv.1 ++
      validateDeviceAttribute (path ++ ".attributes[" ++ kv.1 ++ "]") kv.2)).flatten ++
  (caps.map (fun kv =>
      validateQualifiedName (path ++ ".capacity[" ++ kv.1 ++ "]") kv.1 ++
      validateDeviceCapacity (path ++ ".capacity[" ++ kv.1 ++ "]") kv.2)).flatten ++
  (if attrs.length + caps.length > ResourceSliceMaxAttributesAndCapacitiesPerDevice then
    [⟨.invalid, path, toString (attrs.length + caps.length),
      "the total number of attributes and capacities must not exceed 32"⟩]
  else [])

/-! ## Slice data model (spec section 3)

The internal `resource.ResourceSliceSpec` shape that the validator and the
REST strategy operate on.  The node selector's contents are validated by an
external collaborator (out of scope per spec section 1), so only the
presence of the pointer is embedded. -/

structure BasicDevice where
  attributes : FieldMap DeviceAttribute
  capacity : FieldMap Int
deriving DecidableEq

structure CompositeDevice where
  includes : List String
  consumesCapacityFrom : List String
  attributes : FieldMap DeviceAttribute
  capacity : FieldMap Int
deriving DecidableEq

structure Device where
  name : String
  basic : Option BasicDevice
  composite : Option CompositeDevice
deriving DecidableEq

structure CompositeDeviceMixin where
  attributes : FieldMap DeviceAttribute
  capacity : FieldMap Int
deriving DecidableEq

structure DeviceMixin where
  name : String
  composite : Option CompositeDeviceMixin
deriving DecidableEq

structure ResourceSliceSpec where
  driver : String
  poolName : String
  poolGeneration : Int
  poolResourceSliceCount : Int
  nodeName : String
  hasNodeSelector : Bool
  allNodes : Bool
  devices : List Device
  deviceMixins : List DeviceMixin
deriving DecidableEq

def mixinNames (s : ResourceSliceSpec) : List String :=
  s.deviceMixins.map (fun m => m.name)

def deviceNames (s : ResourceSliceSpec) : List String :=
  s.devices.map (fun d => d.name)

/-! ## Reference graph builder and cycle detector

Modelled from the spec: `BuildGraph` maps each device name to the ordered
list of device names it consumes capacity from, skipping reference targets
that are not declared in the slice (spec section 4.3).  `FindCycles` runs a
depth-first traversal with three-colour marking over all devices in declared
order; a back-edge into the active path reports the cycle reconstructed from
the path starting at the revisited node, with the first name repeated at the
end; finished nodes are never revisited, so each cycle is reported once, in
traversal root order (spec section 4.4).  The recursive traversal is
embedded iteratively with an explicit frame stack and a fuel bound so that
it is structurally recursive. -/

abbrev Graph : Type := List (String × List String)

/-- Adjacency lookup: the ordered consumption list of a node. -/
def neighborsOf : Graph → String → List String
  | [], _ => []
  | (m, ns) :: rest, n => if m = n then ns else neighborsOf rest n

/-- The suffix of the active DFS path that starts at the revisited node. -/
def cycleFrom (nb : String) : List String → List String
  | [] => []
  | x :: rest => if x = nb then x :: rest else cycleFrom nb rest

/-- One DFS frame: current node, path of its ancestors, remaining
neighbours to process. -/
abbrev DfsFrame : Type := String × List String × List String

/-- DFS state: finished ("done") nodes in finish order, cycles found. -/
abbrev DfsState : Type := List String × List (List String)

/-- The depth-first traversal from one root, iteratively: the top frame's
next neighbour is classified as in-progress (on the active path: a cycle),
done (skip), or fresh (push a frame for it); a frame with no remaining
neighbours marks its node done.  `fuel` only bounds the recursion and is
chosen large enough to never run out. -/
def dfsLoop (g : Graph) : Nat → List DfsFrame → DfsState → DfsState
  | 0, _, st => st
  | _ + 1, [], st => st
  | fuel + 1, (node, _, []) :: stack, st =>
      dfsLoop g fuel stack (st.1 ++ [node], st.2)
  | fuel + 1, (node, path, nb :: rest) :: stack, st =>
      let path' := path ++ [node]
      if nb ∈ path' then
        dfsLoop g fuel ((node, path, rest) :: stack)
          (st.1, st.2 ++ [cycleFrom nb path' ++ [nb]])
      else if nb ∈ st.1 then
        dfsLoop g fuel ((node, path, rest) :: stack) st
      else
        dfsLoop g fuel ((nb, path', neighborsOf g nb) :: (node, path, rest) :: stack) st

/-- A fuel bound large enough for any traversal of `g`: one step per edge
plus one finishing step per node, plus one. -/
def dfsFuel (g : Graph) : Nat :=
  g.foldl (fun a e => a + e.2.length) 0 + g.length + 1

/-- Modelled from the spec: `FindCycles(graph)` visits every node in
declared order, skipping nodes already finished by an earlier traversal
(spec section 4.4). -/
def FindCycles (g : Graph) : List (List String) :=
  (g.foldl
    (fun (st : DfsState) e =>
      if e.1 ∈ st.1 then st
      else dfsLoop g (dfsFuel g) [(e.1, [], neighborsOf g e.1)] st)
    ([], [])).2

/-- Modelled from the spec: `BuildGraph(devices)` — edges only between
declared devices, per-device list order preserved, unresolved names skipped
(spec section 4.3). -/
def sliceGraph (s : ResourceSliceSpec) : Graph :=
  s.devices.map (fun d =>
    (d.name,
     match d.composite with
     | some c => c.consumesCapacityFrom.filter (fun r => r ∈ deviceNames s)
     | none => []))

/-- Rendering of a cycle path: names joined by " -> ". -/
def renderCycle : List String → String
  | [] => ""
  | [n] => n
  | n :: m :: ns => n ++ " -> " ++ renderCycle (m :: ns)

def cycleErrMsg : String :=
  "`consumesCapacityFrom` references can not form cycle. Found cycle: "

/-- Modelled from the spec: one error per found cycle, each attributed to
the `spec.devices` field path, detail carrying the rendered path (spec
sections 4.4 and 7). -/
def cycleErrorsOf (s : ResourceSliceSpec) : List FieldError :=
  (FindCycles (sliceGraph s)).map
    (fun c => ⟨.invalid, "spec.devices", "", cycleErrMsg ++ renderCycle c⟩)

/-! ## Slice validator (spec section 4.5) -/

/-- Modelled from the spec: pool checks — name required and a bounded
RFC 1123 subdomain per `/`-separated segment, `ResourceSliceCount > 0`,
`Generation >= 0` (spec section 4.5 item b). -/
def validatePool (s : ResourceSliceSpec) : List FieldError :=
  (if s.poolName = "" then
    [⟨.required, "spec.pool.name", "", ""⟩]
  else
    (if s.poolName.length > PoolNameMaxLength then
      [⟨.tooLong, "spec.pool.name", s.poolName, "must be no more than 253 bytes"⟩]
    else []) ++
    ((splitOnChar '/' s.poolName).map (fun part =>
        if isRFC1123Subdomain part then []
        else [⟨.invalid, "spec.pool.name", part, rfc1123SubdomainMsg⟩])).flatten) ++
  (if s.poolResourceSliceCount ≥ 1 then []
   else [⟨.invalid, "spec.pool.resourceSliceCount", toString s.poolResourceSliceCount,
          "must be greater than zero"⟩]) ++
  (if s.poolGeneration ≥ 0 then []
   else [⟨.invalid, "spec.pool.generation", toString s.poolGeneration,
          "must be greater than or equal to zero"⟩])

/-- How many of the three node-selection alternatives are set. -/
def nodeSelectionCount (s : ResourceSliceSpec) : Nat :=
  (if s.nodeName ≠ "" then 1 else 0) +
  (if s.hasNodeSelector then 1 else 0) +
  (if s.allNodes then 1 else 0)

def nodeSelectionMsg : String :=
  "exactly one of `nodeName`, `nodeSelector`, or `allNodes` is required"

/-- Modelled from the spec: the exactly-one-of node-selection check — a
"required" error on the `spec` path when none of the three alternatives is
set, an "invalid" error with the same detail when more than one is set
(spec section 4.5 item c). -/
def validateNodeSelection (s : ResourceSliceSpec) : List FieldError :=
  if nodeSelectionCount s = 0 then
    [⟨.required, "spec", "", nodeSelectionMsg⟩]
  else if nodeSelectionCount s > 1 then
    [⟨.invalid, "spec", "", nodeSelectionMsg⟩]
  else []

/-- Modelled from the spec: a set node name is a bounded RFC 1123
subdomain (spec section 4.1). -/
def validateNodeNameFormat (s : ResourceSliceSpec) : List FieldError :=
  if s.nodeName = "" then []
  else if isRFC1123Subdomain s.nodeName then []
  else [⟨.invalid, "spec.nodeName", s.nodeName, rfc1123SubdomainMsg⟩]

/-- Modelled from the spec: the driver identifier is a bounded RFC 1123
subdomain (spec sections 4.1 and 4.5 item d). -/
def validateDriver (s : ResourceSliceSpec) : List FieldError :=
  if isRFC1123Subdomain s.driver then []
  else [⟨.invalid, "spec.driver", s.driver, rfc1123SubdomainMsg⟩]

/-- The combined number of devices and device mixins in the slice. -/
def deviceAndMixinCount (s : ResourceSliceSpec) : Nat :=
  s.devices.length + s.deviceMixins.length

/-- Modelled from the spec: the total number of devices and mixins must not
exceed 128, reported against `spec` with the actual count as the invalid
value (spec section 4.5 item e). -/
def validateDeviceAndMixinCount (s : ResourceSliceSpec) : List FieldError :=
  if deviceAndMixinCount s > ResourceSliceMaxDevicesAndMixins then
    [⟨.invalid, "spec", toString (deviceAndMixinCount s),
      "the total number of devices and mixins must not exceed 128"⟩]
  else []

/-- Modelled from the spec: a mixin include reference must be a valid
entity name and must name a declared device mixin (spec section 4.5 item f). -/
def validateMixinRef (s : ResourceSliceSpec) (path ref : String) : List FieldError :=
  (if isRFC1123Label ref then []
   else [⟨.invalid, path ++ ".name", ref, rfc1123LabelMsg⟩]) ++
  (if ref ∈ mixinNames s then []
   else [⟨.invalid, path, ref, "must be the name of a mixin in the resource slice"⟩])

/-- Modelled from the spec: a capacity-consumption reference must be a
valid entity name and must name a declared device (spec sections 4.3 and 7). -/
def validateDeviceRef (s : ResourceSliceSpec) (path ref : String) : List FieldError :=
  (if isRFC1123Label ref then []
   else [⟨.invalid, path ++ ".name", ref, rfc1123LabelMsg⟩]) ++
  (if ref ∈ deviceNames s then []
   else [⟨.invalid, path, ref, "must be the name of a device in the resource slice"⟩])

/-- Modelled from the spec: composite-device checks — at most 8 mixin
includes, every include resolved, every consumption reference resolved,
then the shared attribute/capacity checks (spec section 4.5 item f). -/
def validateCompositeDevice (s : ResourceSliceSpec) (path : String)
    (c : CompositeDevice) : List FieldError :=
  (if c.includes.length > ResourceSliceMaxMixinRefs then
    [⟨.tooMany, path ++ ".includes", toString c.includes.length, "must have at most 8 items"⟩]
  else []) ++
  (c.includes.enum.map (fun p =>
      validateMixinRef s (path ++ ".includes[" ++ toString p.1 ++ "]") p.2)).flatten ++
  (c.consumesCapacityFrom.enum.map (fun p =>
      validateDeviceRef s (path ++ ".consumesCapacityFrom[" ++ toString p.1 ++ "]") p.2)).flatten ++
  validateDeviceContent path c.attributes c.capacity

def exactlyOneDeviceTypeMsg : String :=
  "exactly one of `basic`, or `composite` is required"

/-- Modelled from the spec: per-device checks — name syntax, exactly one
content kind, then the content checks of that kind (spec section 4.5
item f). -/
def validateDevice (s : ResourceSliceSpec) (i : Nat) (d : Device) : List FieldError :=
  let path := "spec.devices[" ++ toString i ++ "]"
  (if isRFC1123Label d.name then []
   else [⟨.invalid, path ++ ".name", d.name, rfc1123LabelMsg⟩]) ++
  (match d.basic, d.composite with
   | some b, none => validateDeviceContent (path ++ ".basic") b.attributes b.capacity
   | none, some c => validateCompositeDevice s (path ++ ".composite") c
   | none, none => [⟨.required, path, "", exactlyOneDeviceTypeMsg⟩]
   | some _, some _ => [⟨.invalid, path, "", exactlyOneDeviceTypeMsg⟩])

def validateDevices (s : ResourceSliceSpec) : List FieldError :=
  (s.devices.enum.map (fun p => validateDevice s p.1 p.2)).flatten

/-- Modelled from the spec: per-mixin checks — name syntax, no duplicate
mixin name across the document, `composite` content required, then the
shared attribute/capacity checks (spec section 4.5 item f). -/
def validateDeviceMixin (i : Nat) (m : DeviceMixin) (seen : List String) : List FieldError :=
  let path := "spec.deviceMixins[" ++ toString i ++ "]"
  (if isRFC1123Label m.name then []
   else [⟨.invalid, path ++ ".name", m.name, rfc1123LabelMsg⟩]) ++
  (if m.name ∈ seen then [⟨.duplicate, path ++ ".name", m.name, ""⟩] else []) ++
  (match m.composite with
   | some c => validateDeviceContent (path ++ ".composite") c.attributes c.capacity
   | none => [⟨.required, path, "", "`composite` is required"⟩])

def validateDeviceMixins (s : ResourceSliceSpec) : List FieldError :=
  (s.deviceMixins.enum.map (fun p =>
      validateDeviceMixin p.1 p.2 ((s.deviceMixins.take p.1).map (fun m => m.name)))).flatten

/-- Modelled from the spec: `ValidateResourceSlice` orchestration — pool
checks, the exactly-one-of node selection, node-name and driver syntax, the
device+mixin ceiling, per-device and per-mixin checks, then the
reference-graph cycle check; all errors accumulated in order (spec section
4.5).  Generic object metadata validation is an external collaborator and
out of scope (spec section 1). -/
def ValidateResourceSlice (s : ResourceSliceSpec) : List FieldError :=
  validatePool s ++
  validateNodeSelection s ++
  validateNodeNameFormat s ++
  validateDriver s ++
  validateDeviceAndMixinCount s ++
  validateDevices s ++
  validateDeviceMixins s ++
  cycleErrorsOf s

/-- Modelled from the spec: Driver, the node-selection fields and
Pool.Name are immutable after creation (spec sections 3 and 6). -/
def validateImmutableFields (n o : ResourceSliceSpec) : List FieldError :=
  (if n.nodeName = o.nodeName then []
   else [⟨.invalid, "spec.nodeName", n.nodeName, "field is immutable"⟩]) ++
  (if n.hasNodeSelector = o.hasNodeSelector ∧ n.allNodes = o.allNodes then []
   else [⟨.invalid, "spec", "", "field is immutable"⟩]) ++
  (if n.driver = o.driver then []
   else [⟨.invalid, "spec.driver", n.driver, "field is immutable"⟩]) ++
  (if n.poolName = o.poolName then []
   else [⟨.invalid, "spec.pool.name", n.poolName, "field is immutable"⟩])

/-- Modelled from the spec: `ValidateResourceSliceUpdate` adds the
immutability checks on top of the create-time checks (spec section 6). -/
def ValidateResourceSliceUpdate (n o : ResourceSliceSpec) : List FieldError :=
  ValidateResourceSlice n ++ validateImmutableFields n o

/-! ## REST strategy feature gating

Modelled from the spec: the `resourceslice` REST strategy
(`PrepareForCreate` / `PrepareForUpdate` and its `dropDisabledFields`
helper) is exercised by the strategy tests in `src/unnamed/part_000` but is
not among the provided sources.  Spec section 6: when the
partitionable-devices feature toggle is disabled, mixin/composite-device
fields are stripped silently before validation on create, but are preserved
on update when the old stored object already carried them. -/

/-- Whether the slice carries any mixin/composite-device field. -/
def sliceHasPartitionableFields (s : ResourceSliceSpec) : Bool :=
  !s.deviceMixins.isEmpty || s.devices.any (fun d => d.composite.isSome)

/-- Strip every mixin/composite-device field from the slice. -/
def stripPartitionableFields (s : ResourceSliceSpec) : ResourceSliceSpec :=
  { s with
    deviceMixins := []
    devices := s.devices.map (fun d => { d with composite := none }) }

/-- Modelled from the spec: `dropDisabledFields` — with the feature enabled
nothing is stripped; with it disabled, the fields are stripped unless the
old object (present only on update) already carried them. -/
def dropDisabledFields (enabled : Bool) (newSlice : ResourceSliceSpec)
    (oldSlice : Option ResourceSliceSpec) : ResourceSliceSpec :=
  if enabled then newSlice
  else
    match oldSlice with
    | some old =>
        if sliceHasPartitionableFields old then newSlice
        else stripPartitionableFields newSlice
    | none => stripPartitionableFields newSlice

/-- Modelled from the spec: the mutation `PrepareForCreate` applies before
create-time validation. -/
def PrepareForCreate (enabled : Bool) (s : ResourceSliceSpec) : ResourceSliceSpec :=
  dropDisabledFields enabled s none

/-- Modelled from the spec: the mutation `PrepareForUpdate` applies before
update-time validation. -/
def PrepareForUpdate (enabled : Bool) (n o : ResourceSliceSpec) : ResourceSliceSpec :=
  dropDisabledFields enabled n (some o)

/-! ## Concrete fixtures used by the witnesses -/

/-- A plain valid basic device with empty maps. -/
def basicDeviceFx (name : String) : Device :=
  { name := name, basic := some { attributes := [], capacity := [] }, composite := none }

/-- A composite device consuming capacity from one other device. -/
def chainDeviceFx (name ref : String) : Device :=
  { name := name
    basic := none
    composite := some
      { includes := [], consumesCapacityFrom := [ref], attributes := [], capacity := [] } }

/-- An otherwise-valid slice skeleton around the given devices and mixins. -/
def sliceFx (devices : List Device) (mixins : List DeviceMixin) : ResourceSliceSpec :=
  { driver := "test.example.com"
    poolName := "foo"
    poolGeneration := 0
    poolResourceSliceCount := 1
    nodeName := "foo"
    hasNodeSelector := false
    allNodes := false
    devices := devices
    deviceMixins := mixins }

/-- A valid slice whose three composite devices form one consumption cycle. -/
def cycleSliceFx : ResourceSliceSpec :=
  sliceFx
    [chainDeviceFx "device-0-0" "device-0-1",
     chainDeviceFx "device-0-1" "device-0-2",
     chainDeviceFx "device-0-2" "device-0-0"]
    []

/-- A valid slice whose six composite devices form two disjoint cycles. -/
def twoCycleSliceFx : ResourceSliceSpec :=
  sliceFx
    [chainDeviceFx "device-0-0" "device-0-1",
     chainDeviceFx "device-0-1" "device-0-2",
     chainDeviceFx "device-0-2" "device-0-0",
     chainDeviceFx "device-1-0" "device-1-1",
     chainDeviceFx "device-1-1" "device-1-2",
     chainDeviceFx "device-1-2" "device-1-0"]
    []

/-- An otherwise-valid slice with no node-selection alternative set. -/
def noNodeSelectionFx : ResourceSliceSpec :=
  { sliceFx [basicDeviceFx "d0"] [] with nodeName := "" }

/-- An otherwise-valid slice with two node-selection alternatives set. -/
def twoNodeSelectionFx : ResourceSliceSpec :=
  { sliceFx [basicDeviceFx "d0"] [] with nodeName := "worker", allNodes := true }

/-- A trivially valid device mixin. -/
def mixinFx (name : String) : DeviceMixin :=
  { name := name, composite := some { attributes := [], capacity := [] } }

/-- An otherwise-valid slice with the given combined device+mixin total:
one basic device plus `n - 1` mixins. -/
def countedSliceFx (n : Nat) : ResourceSliceSpec :=
  sliceFx [basicDeviceFx "d0"] ((List.range (n - 1)).map (fun i => mixinFx ("m" ++ toString i)))

/-- A valid slice carrying partitionable-device fields: one device mixin
and one composite device including it (the strategy tests'
`sliceWithPartitionableDevices`). -/
def partitionableSliceFx : ResourceSliceSpec :=
  { driver := "testdriver.example.com"
    poolName := "valid-pool-name"
    poolGeneration := 0
    poolResourceSliceCount := 1
    nodeName := "valid-node-name"
    hasNodeSelector := false
    allNodes := false
    devices := [{ name := "device"
                  basic := none
                  composite := some
                    { includes := ["mixin"], consumesCapacityFrom := []
                      attributes := [], capacity := [] } }]
    deviceMixins := [mixinFx "mixin"] }

/-! ## Theorems: mixin merge engine -/

theorem lookupKey_setKey {V : Type} (m : FieldMap V) (k q : String) (v : V) :
    lookupKey (setKey m k v) q = if k = q then some v else lookupKey m q := by
  induction m with
  | nil => simp [setKey, lookupKey]
  | cons p rest ih =>
    obtain ⟨a, b⟩ := p
    by_cases ha : a = k
    · subst ha
      by_cases hq : a = q <;> simp [setKey, lookupKey, hq]
    · by_cases hq : a = q
      · subst hq
        have : ¬ k = a := fun h => ha h.symm
        simp [setKey, lookupKey, ha, this]
      · simp [setKey, lookupKey, ha, hq, ih]

theorem lookupKey_eq_none_of_not_mem {V : Type} (m : FieldMap V) (k : String)
    (h : k ∉ m.map Prod.fst) : lookupKey m k = none := by
  induction m with
  | nil => simp [lookupKey]
  | cons p rest ih =>
    obtain ⟨a, b⟩ := p
    simp only [List.map_cons, List.mem_cons] at h
    push_neg at h
    have ha : ¬ a = k := fun hak => h.1 hak.symm
    simp [lookupKey, ha, ih h.2]

theorem lookupKey_mergeLayer_of_none {V : Type} (layer : FieldMap V) (base : FieldMap V)
    (k : String) (h : lookupKey layer k = none) :
    lookupKey (mergeLayer base layer) k = lookupKey base k := by
  induction layer generalizing base with
  | nil => simp [mergeLayer]
  | cons p rest ih =>
    obtain ⟨a, b⟩ := p
    by_cases ha : a = k
    · simp [lookupKey, ha] at h
    · simp only [lookupKey, ha, if_false] at h
      have hstep : mergeLayer base ((a, b) :: rest) = mergeLayer (setKey base a b) rest := rfl
      rw [hstep, ih _ h, lookupKey_setKey]
      simp [ha]

theorem lookupKey_mergeLayer_of_some {V : Type} (layer : FieldMap V) (base : FieldMap V)
    (k : String) (v : V) (hnd : keysNodup layer) (h : lookupKey layer k = some v) :
    lookupKey (mergeLayer base layer) k = some v := by
  induction layer generalizing base with
  | nil => simp [lookupKey] at h
  | cons p rest ih =>
    obtain ⟨a, b⟩ := p
    have hstep : mergeLayer base ((a, b) :: rest) = mergeLayer (setKey base a b) rest := rfl
    simp only [keysNodup, List.map_cons, List.nodup_cons] at hnd
    by_cases ha : a = k
    · subst ha
      have hbv : b = v := by simpa [lookupKey] using h
      subst hbv
      have hrest : lookupKey rest a = none :=
        lookupKey_eq_none_of_not_mem rest a hnd.1
      rw [hstep, lookupKey_mergeLayer_of_none rest _ a hrest, lookupKey_setKey]
      simp
    · simp only [lookupKey, ha, if_false] at h
      rw [hstep]
      exact ih _ hnd.2 h

theorem lookupKey_mergeLayer_nil_base {V : Type} (layer : FieldMap V) (k : String)
    (hnd : keysNodup layer) :
    lookupKey (mergeLayer [] layer) k = lookupKey layer k := by
  cases h : lookupKey layer k with
  | none => rw [lookupKey_mergeLayer_of_none layer [] k h]; rfl
  | some v => exact lookupKey_mergeLayer_of_some layer [] k v hnd h

/-- The accumulator of `resolveEntity` for a two-element include list with
both names resolved. -/
theorem resolveEntity_pair_unfold {V : Type} (table : List (String × FieldMap V))
    (nA nB : String) (mA mB : FieldMap V) (own : FieldMap V)
    (hA : lookupMixin table nA = some mA) (hB : lookupMixin table nB = some mB) :
    resolveEntity table [nA, nB] own = mergeLayer (mergeLayer (mergeLayer [] mA) mB) own := by
  unfold resolveEntity
  simp [hA, hB]

/-- C1: for an entity including mixins [A, B] that both define key `k`, the
resolved map takes B's value at `k` when the entity does not define `k`
itself (the later mixin wins), and the entity's own value when it does,
regardless of A's and B's values. -/
theorem mixin_merge_override_order {V : Type}
    (table : List (String × FieldMap V)) (nA nB : String)
    (mA mB own : FieldMap V) (k : String) (vA vB : V)
    (hA : lookupMixin table nA = some mA) (hB : lookupMixin table nB = some mB)
    (hndA : keysNodup mA) (hndB : keysNodup mB) (hndOwn : keysNodup own)
    (hvA : lookupKey mA k = some vA) (hvB : lookupKey mB k = some vB) :
    (lookupKey own k = none →
      lookupKey (resolveEntity table [nA, nB] own) k = some vB) ∧
    (∀ vE, lookupKey own k = some vE →
      lookupKey (resolveEntity table [nA, nB] own) k = some vE) := by
  rw [resolveEntity_pair_unfold table nA nB mA mB own hA hB]
  constructor
  · intro hown
    rw [lookupKey_mergeLayer_of_none own _ k hown]
    exact lookupKey_mergeLayer_of_some mB _ k vB hndB hvB
  · intro vE hown
    exact lookupKey_mergeLayer_of_some own _ k vE hndOwn hown

theorem mixin_merge_override_order_witness :
    lookupKey (resolveEntity [("a", [("k", "va")]), ("b", [("k", "vb")])]
      ["a", "b"] ([] : FieldMap String)) "k" = some "vb" ∧
    lookupKey (resolveEntity [("a", [("k", "va")]), ("b", [("k", "vb")])]
      ["a", "b"] [("k", "ve")]) "k" = some "ve" :=
  ⟨(mixin_merge_override_order [("a", [("k", "va")]), ("b", [("k", "vb")])] "a" "b"
      [("k", "va")] [("k", "vb")] [] "k" "va" "vb" rfl rfl (by decide) (by decide)
      (by decide) rfl rfl).1 rfl,
   (mixin_merge_override_order [("a", [("k", "va")]), ("b", [("k", "vb")])] "a" "b"
      [("k", "va")] [("k", "vb")] [("k", "ve")] "k" "va" "vb" rfl rfl (by decide)
      (by decide) (by decide) rfl rfl).2 "ve" rfl⟩

/-- One merged layer looked up: the layer wins over the base. -/
theorem lookupKey_mergeLayer_or {V : Type} (m base : FieldMap V) (k : String)
    (hnd : keysNodup m) :
    lookupKey (mergeLayer base m) k = (lookupKey m k).or (lookupKey base k) := by
  cases h : lookupKey m k with
  | some v => rw [lookupKey_mergeLayer_of_some m base k v hnd h]; rfl
  | none => rw [lookupKey_mergeLayer_of_none m base k h, Option.none_or]

/-- Folding `mergeLayer` over a stack of layers looks up as `layersLookup`
over the stack, falling back to the base. -/
theorem lookupKey_foldl_mergeLayer {V : Type} (ls : List (FieldMap V))
    (base : FieldMap V) (k : String) (hnd : ∀ m ∈ ls, keysNodup m) :
    lookupKey (ls.foldl mergeLayer base) k =
      (layersLookup ls k).or (lookupKey base k) := by
  induction ls generalizing base with
  | nil => simp [layersLookup]
  | cons m ms ih =>
    have hm : keysNodup m := hnd m (List.mem_cons_self m ms)
    have hms : ∀ m' ∈ ms, keysNodup m' := fun m' h' => hnd m' (List.mem_cons_of_mem m h')
    calc lookupKey ((m :: ms).foldl mergeLayer base) k
        = (layersLookup ms k).or (lookupKey (mergeLayer base m) k) :=
          ih (mergeLayer base m) hms
      _ = (layersLookup ms k).or ((lookupKey m k).or (lookupKey base k)) := by
          rw [lookupKey_mergeLayer_or m base k hm]
      _ = ((layersLookup ms k).or (lookupKey m k)).or (lookupKey base k) := by
          rw [Option.or_assoc]
      _ = (layersLookup (m :: ms) k).or (lookupKey base k) := rfl

/-- The include fold of `resolveEntity` folds `mergeLayer` over the
resolved layers. -/
theorem resolveEntity_eq_foldl {V : Type} (table : List (String × FieldMap V))
    (includes : List String) (own : FieldMap V) :
    resolveEntity table includes own =
      mergeLayer ((resolvedLayers table includes).foldl mergeLayer []) own := by
  unfold resolveEntity
  congr 1
  suffices h : ∀ base : FieldMap V,
      includes.foldl (fun acc name => match lookupMixin table name with
        | some m => mergeLayer acc m | none => acc) base =
      (resolvedLayers table includes).foldl mergeLayer base from h []
  intro base
  induction includes generalizing base with
  | nil => rfl
  | cons n ns ih =>
    unfold resolvedLayers
    cases h : lookupMixin table n with
    | some m =>
      simp only [List.foldl_cons, h, List.filterMap_cons]
      exact ih (mergeLayer base m)
    | none =>
      simp only [List.foldl_cons, h, List.filterMap_cons]
      exact ih base

/-- What `resolveEntity` resolves a key to, for an arbitrary includes list:
the entity's own binding first, else the latest included mixin's. -/
theorem resolveEntity_lookup_general {V : Type} (table : List (String × FieldMap V))
    (includes : List String) (own : FieldMap V) (k : String)
    (hndL : ∀ m ∈ resolvedLayers table includes, keysNodup m)
    (hndOwn : keysNodup own) :
    lookupKey (resolveEntity table includes own) k =
      (lookupKey own k).or (layersLookup (resolvedLayers table includes) k) := by
  rw [resolveEntity_eq_foldl table includes own,
    lookupKey_mergeLayer_or own _ k hndOwn,
    lookupKey_foldl_mergeLayer (resolvedLayers table includes) [] k hndL]
  have hnil : lookupKey ([] : FieldMap V) k = none := rfl
  rw [hnil, Option.or_none]

/-- A key resolved by `layersLookup` comes from one of the layers. -/
theorem exists_of_layersLookup_eq_some {V : Type} (ls : List (FieldMap V))
    (k : String) (v : V) (h : layersLookup ls k = some v) :
    ∃ m ∈ ls, lookupKey m k = some v := by
  induction ls with
  | nil => simp [layersLookup] at h
  | cons m ms ih =>
    unfold layersLookup at h
    cases h' : layersLookup ms k with
    | some w =>
      rw [h'] at h
      have hv : w = v := Option.some.inj h
      subst hv
      obtain ⟨m', hm', hm'v⟩ := ih h'
      exact ⟨m', List.mem_cons_of_mem m hm', hm'v⟩
    | none =>
      rw [h', Option.none_or] at h
      exact ⟨m, List.mem_cons_self m ms, h⟩

/-- No layer binds the key: `layersLookup` resolves nothing. -/
theorem layersLookup_eq_none_of_all {V : Type} (ls : List (FieldMap V)) (k : String)
    (h : ∀ m ∈ ls, lookupKey m k = none) : layersLookup ls k = none := by
  induction ls with
  | nil => rfl
  | cons m ms ih =>
    unfold layersLookup
    rw [ih (fun m' h' => h m' (List.mem_cons_of_mem m h')),
      h m (List.mem_cons_self m ms)]
    rfl

/-- With pairwise non-conflicting layers, a key bound by a member layer is
resolved to that member's value. -/
theorem layersLookup_eq_some_of_mem {V : Type} (ls : List (FieldMap V)) :
    ∀ (m : FieldMap V) (k : String) (v : V),
    ls.Pairwise (fun m1 m2 => ∀ q, lookupKey m1 q = none ∨ lookupKey m2 q = none) →
    m ∈ ls → lookupKey m k = some v → layersLookup ls k = some v := by
  induction ls with
  | nil =>
    intro m k v _ hm _
    simp at hm
  | cons m0 ms ih =>
    intro m k v hp hm hv
    rw [List.pairwise_cons] at hp
    rcases List.mem_cons.mp hm with rfl | hmem
    · have hnone : ∀ m' ∈ ms, lookupKey m' k = none := by
        intro m' hm'
        rcases hp.1 m' hm' k with h1 | h1
        · rw [h1] at hv; exact absurd hv (by simp)
        · exact h1
      unfold layersLookup
      rw [layersLookup_eq_none_of_all ms k hnone, Option.none_or]
      exact hv
    · unfold layersLookup
      rw [ih m k v hp.2 hmem hv]
      rfl

/-- Two singleton maps with different keys never both bind a key. -/
theorem singleton_maps_disjoint {V : Type} (k1 k2 : String) (v1 v2 : V)
    (h : k1 ≠ k2) :
    ∀ q, lookupKey [(k1, v1)] q = none ∨ lookupKey [(k2, v2)] q = none := by
  intro q
  by_cases h1 : k1 = q
  · right
    subst h1
    simp [lookupKey, Ne.symm h]
  · left
    simp [lookupKey, h1]

/-- C7: for every entity with an arbitrary includes list and own map whose
keys do not conflict across the resolved mixins and the entity itself, the
resolved map is exactly the set union of all keys of all included mixins
and the entity's own map, each key mapped to the value of its unique
(hence highest-priority) source: no key present in any source is dropped
and no key absent from every source appears. -/
theorem mixin_merge_lossless {V : Type} (table : List (String × FieldMap V))
    (includes : List String) (own : FieldMap V)
    (hndL : ∀ m ∈ resolvedLayers table includes, keysNodup m)
    (hndOwn : keysNodup own)
    (hdisjOwn : ∀ m ∈ resolvedLayers table includes, ∀ q,
      lookupKey m q = none ∨ lookupKey own q = none)
    (hdisjL : (resolvedLayers table includes).Pairwise
      (fun m1 m2 => ∀ q, lookupKey m1 q = none ∨ lookupKey m2 q = none)) :
    ∀ k v, lookupKey (resolveEntity table includes own) k = some v ↔
      (lookupKey own k = some v ∨
       ∃ m ∈ resolvedLayers table includes, lookupKey m k = some v) := by
  intro k v
  rw [resolveEntity_lookup_general table includes own k hndL hndOwn]
  constructor
  · intro h
    cases hown : lookupKey own k with
    | some w =>
      left
      rw [hown] at h
      exact h
    | none =>
      right
      rw [hown, Option.none_or] at h
      exact exists_of_layersLookup_eq_some _ k v h
  · intro h
    rcases h with hown | ⟨m, hm, hv⟩
    · rw [hown]
      rfl
    · have hownnone : lookupKey own k = none := by
        rcases hdisjOwn m hm k with h1 | h1
        · rw [h1] at hv; exact absurd hv (by simp)
        · exact h1
      rw [hownnone, Option.none_or]
      exact layersLookup_eq_some_of_mem _ m k v hdisjL hm hv

theorem mixin_merge_lossless_witness :
    lookupKey (resolveEntity
      [("a", [("x", "1")]), ("b", [("y", "2")]), ("c", [("w", "4")])]
      ["a", "b", "c"] [("z", "3")]) "y" = some "2" := by
  have hRL : resolvedLayers
      [("a", [("x", "1")]), ("b", [("y", "2")]), ("c", [("w", "4")])]
      ["a", "b", "c"] = [[("x", "1")], [("y", "2")], [("w", "4")]] := rfl
  refine ((mixin_merge_lossless
      [("a", [("x", "1")]), ("b", [("y", "2")]), ("c", [("w", "4")])]
      ["a", "b", "c"] [("z", "3")] ?_ ?_ ?_ ?_) "y" "2").mpr
      (Or.inr ⟨[("y", "2")], ?_, rfl⟩)
  · rw [hRL]
    decide
  · decide
  · rw [hRL]
    intro m hm
    simp only [List.mem_cons, List.not_mem_nil, or_false] at hm
    rcases hm with rfl | rfl | rfl
    · exact singleton_maps_disjoint "x" "z" "1" "3" (by decide)
    · exact singleton_maps_disjoint "y" "z" "2" "3" (by decide)
    · exact singleton_maps_disjoint "w" "z" "4" "3" (by decide)
  · rw [hRL]
    refine List.Pairwise.cons ?_ (List.Pairwise.cons ?_
      (List.Pairwise.cons ?_ List.Pairwise.nil))
    · intro m' hm'
      simp only [List.mem_cons, List.not_mem_nil, or_false] at hm'
      rcases hm' with rfl | rfl
      · exact singleton_maps_disjoint "x" "y" "1" "2" (by decide)
      · exact singleton_maps_disjoint "x" "w" "1" "4" (by decide)
    · intro m' hm'
      simp only [List.mem_cons, List.not_mem_nil, or_false] at hm'
      rcases hm' with rfl
      exact singleton_maps_disjoint "y" "w" "2" "4" (by decide)
    · intro m' hm'
      simp at hm'
  · rw [hRL]
    decide

/-! ## Theorems: UniqueString and DeviceRequest conversion -/

/-- C10: converting any string to a `UniqueString` and back yields the
string again; the empty string maps to the null handle and the null handle
maps back to the empty string; both conversions always return nil error. -/
theorem uniqueString_roundtrip :
    (∀ s : String, ∃ u : UniqueString,
      Convert_string_To_api_UniqueString s = .ok u ∧
      Convert_api_UniqueString_To_string u = .ok s ∧
      (s = "" ↔ u = NullUniqueString)) ∧
    (∀ u : UniqueString, ∃ t : String, Convert_api_UniqueString_To_string u = .ok t) := by
  constructor
  · intro s
    by_cases h : s = ""
    · subst h
      exact ⟨NullUniqueString, rfl, rfl, by simp⟩
    · refine ⟨MakeUniqueString s, ?_, ?_, ?_⟩
      · simp [Convert_string_To_api_UniqueString, h]
      · simp [Convert_api_UniqueString_To_string, MakeUniqueString, NullUniqueString,
          UniqueString.str]
      · simp [h, MakeUniqueString, NullUniqueString]
  · intro u
    cases u with
    | none => exact ⟨"", rfl⟩
    | some s =>
      exact ⟨s, by simp [Convert_api_UniqueString_To_string, NullUniqueString,
        UniqueString.str]⟩

theorem foldl_append_singleton {α β : Type} (f : α → β) (l : List α) (init : List β) :
    l.foldl (fun acc x => acc ++ [f x]) init = init ++ l.map f := by
  induction l generalizing init with
  | nil => simp
  | cons x xs ih => simp [ih]

/-- C9: for a DeviceRequest with a non-empty DeviceClassName and a non-nil
selector list of length n > 0, each of the four conversion functions
produces a selectors list of length 2n whose first n entries are zero
valued: the output slice is created with `make` of length n and then
appended to. -/
theorem deviceRequest_selector_doubling
    (name dcn mode : String) (ss : List DeviceSelector) (cnt : Int) (fa : List String)
    (hdcn : dcn ≠ "") (hn : 0 < ss.length)
    (hmode : mode = DeviceAllocationModeAll ∨ mode = DeviceAllocationModeExactCount) :
    (∃ sels, internalSelectorsOf (Convert_v1beta1_DeviceRequest_To_resource_DeviceRequest
        ⟨name, dcn, fa, some ss, mode, cnt⟩) = some sels ∧
      sels.length = 2 * ss.length ∧
      sels.take ss.length = List.replicate ss.length DeviceSelector.zero) ∧
    (∃ sels, versionedSelectorsOf (Convert_resource_DeviceRequest_To_v1beta1_DeviceRequest
        ⟨name, none, some ⟨dcn, some ss, mode, cnt⟩⟩) = some sels ∧
      sels.length = 2 * ss.length ∧
      sels.take ss.length = List.replicate ss.length DeviceSelector.zero) ∧
    (∃ sels, internalSelectorsOf (Convert_v1alpha3_DeviceRequest_To_resource_DeviceRequest
        ⟨name, dcn, fa, some ss, mode, cnt⟩) = some sels ∧
      sels.length = 2 * ss.length ∧
      sels.take ss.length = List.replicate ss.length DeviceSelector.zero) ∧
    (∃ sels, versionedSelectorsOf (Convert_resource_DeviceRequest_To_v1alpha3_DeviceRequest
        ⟨name, none, some ⟨dcn, some ss, mode, cnt⟩⟩) = some sels ∧
      sels.length = 2 * ss.length ∧
      sels.take ss.length = List.replicate ss.length DeviceSelector.zero) := by
  refine ⟨⟨List.replicate ss.length DeviceSelector.zero ++ ss.map convertDeviceSelector,
      ?_, ?_, ?_⟩,
    ⟨List.replicate ss.length DeviceSelector.zero ++ ss.map convertDeviceSelector,
      ?_, ?_, ?_⟩,
    ⟨List.replicate ss.length DeviceSelector.zero ++ ss.map convertDeviceSelector,
      ?_, ?_, ?_⟩,
    ⟨List.replicate ss.length DeviceSelector.zero ++ ss.map convertDeviceSelector,
      ?_, ?_, ?_⟩⟩
  case _ =>
    simp only [Convert_v1beta1_DeviceRequest_To_resource_DeviceRequest, hdcn, if_neg hdcn,
      if_pos hmode, internalSelectorsOf, Option.bind_some, foldl_append_singleton]
    rfl
  case _ => simp [two_mul]
  case _ => simp [List.take_append]
  case _ =>
    simp only [Convert_resource_DeviceRequest_To_v1beta1_DeviceRequest,
      if_pos hmode, versionedSelectorsOf, foldl_append_singleton]
  case _ => simp [two_mul]
  case _ => simp [List.take_append]
  case _ =>
    simp only [Convert_v1alpha3_DeviceRequest_To_resource_DeviceRequest, hdcn, if_neg hdcn,
      if_pos hmode, internalSelectorsOf, Option.bind_some, foldl_append_singleton]
    rfl
  case _ => simp [two_mul]
  case _ => simp [List.take_append]
  case _ =>
    simp only [Convert_resource_DeviceRequest_To_v1alpha3_DeviceRequest,
      if_pos hmode, versionedSelectorsOf, foldl_append_singleton]
  case _ => simp [two_mul]
  case _ => simp [List.take_append]

theorem deviceRequest_selector_doubling_witness :
    ∃ sels, internalSelectorsOf (Convert_v1beta1_DeviceRequest_To_resource_DeviceRequest
      ⟨"req-0", "gpu.example.com", [], some [⟨some "true"⟩], "ExactCount", 1⟩) = some sels ∧
      sels.length = 2 * 1 ∧ sels.take 1 = List.replicate 1 DeviceSelector.zero :=
  (deviceRequest_selector_doubling "req-0" "gpu.example.com" "ExactCount"
    [⟨some "true"⟩] 1 [] (by decide) (by decide) (Or.inr rfl)).1

/-! ## Theorems: slice validator -/

/-- C8: the qualified-name key "/" yields exactly two separate
required-kind errors on the same key path — one for the empty domain part
and one for the empty name part — because the domain and identifier parts
are validated independently. -/
theorem qualifiedName_slash_two_required_errors (path : String) :
    validateQualifiedName path "/" =
      [⟨.required, path, "", "the domain must not be empty"⟩,
       ⟨.required, path, "", "the name must not be empty"⟩] := by
  rfl

theorem qualifiedName_slash_two_required_errors_witness :
    validateQualifiedName "spec.devices[0].basic.attributes[/]" "/" =
      [⟨.required, "spec.devices[0].basic.attributes[/]", "", "the domain must not be empty"⟩,
       ⟨.required, "spec.devices[0].basic.attributes[/]", "", "the name must not be empty"⟩] :=
  qualifiedName_slash_two_required_errors "spec.devices[0].basic.attributes[/]"

/-- C4: with every other check passing, node-selection validation yields
exactly one required-kind error on the spec path when none of nodeName,
nodeSelector, allNodes is set; exactly one invalid-kind error with the same
detail when two or more are set; and no error when exactly one is set. -/
theorem node_selection_exactly_one (s : ResourceSliceSpec)
    (hPool : validatePool s = []) (hName : validateNodeNameFormat s = [])
    (hDriver : validateDriver s = []) (hCount : validateDeviceAndMixinCount s = [])
    (hDevs : validateDevices s = []) (hMix : validateDeviceMixins s = [])
    (hCyc : cycleErrorsOf s = []) :
    (nodeSelectionCount s = 0 →
      ValidateResourceSlice s = [⟨.required, "spec", "", nodeSelectionMsg⟩]) ∧
    (2 ≤ nodeSelectionCount s →
      ValidateResourceSlice s = [⟨.invalid, "spec", "", nodeSelectionMsg⟩]) ∧
    (nodeSelectionCount s = 1 → ValidateResourceSlice s = []) := by
  unfold ValidateResourceSlice
  rw [hPool, hName, hDriver, hCount, hDevs, hMix, hCyc]
  simp only [List.append_nil, List.nil_append]
  refine ⟨?_, ?_, ?_⟩
  · intro h
    simp [validateNodeSelection, h]
  · intro h
    have h0 : ¬ nodeSelectionCount s = 0 := by omega
    have h1 : nodeSelectionCount s > 1 := by omega
    simp [validateNodeSelection, h0, h1]
  · intro h
    simp [validateNodeSelection, h]

theorem node_selection_exactly_one_witness :
    ValidateResourceSlice noNodeSelectionFx = [⟨.required, "spec", "", nodeSelectionMsg⟩] ∧
    ValidateResourceSlice twoNodeSelectionFx = [⟨.invalid, "spec", "", nodeSelectionMsg⟩] :=
  ⟨(node_selection_exactly_one noNodeSelectionFx rfl rfl rfl rfl rfl rfl rfl).1 rfl,
   (node_selection_exactly_one twoNodeSelectionFx rfl rfl rfl rfl rfl rfl rfl).2.1 (by decide)⟩

/-- C5: with every other check passing, a slice with exactly 128 combined
devices and mixins is accepted, and one with 129 is rejected with exactly
one structural error on the spec path whose invalid value is the actual
count and whose detail cites the 128 ceiling. -/
theorem device_mixin_ceiling (s : ResourceSliceSpec)
    (hPool : validatePool s = []) (hSel : validateNodeSelection s = [])
    (hName : validateNodeNameFormat s = []) (hDriver : validateDriver s = [])
    (hDevs : validateDevices s = []) (hMix : validateDeviceMixins s = [])
    (hCyc : cycleErrorsOf s = []) :
    (deviceAndMixinCount s = 128 → ValidateResourceSlice s = []) ∧
    (deviceAndMixinCount s = 129 →
      ValidateResourceSlice s =
        [⟨.invalid, "spec", "129",
          "the total number of devices and mixins must not exceed 128"⟩]) := by
  unfold ValidateResourceSlice
  rw [hPool, hSel, hName, hDriver, hDevs, hMix, hCyc]
  simp only [List.append_nil, List.nil_append]
  constructor
  · intro h
    unfold validateDeviceAndMixinCount
    rw [h]
    decide
  · intro h
    unfold validateDeviceAndMixinCount
    rw [h]
    decide

set_option maxRecDepth 100000 in
theorem device_mixin_ceiling_witness :
    deviceAndMixinCount (countedSliceFx 129) = 129 ∧
    ValidateResourceSlice (countedSliceFx 129) =
      [⟨.invalid, "spec", "129",
        "the total number of devices and mixins must not exceed 128"⟩] :=
  ⟨by decide,
   (device_mixin_ceiling (countedSliceFx 129) (by decide) (by decide) (by decide)
      (by decide) (by decide) (by decide) (by decide)).2 (by decide)⟩

/-- C2: for a slice whose devices' consumption references form the single
directed cycle n0 -> n1 -> n2 -> n0 and which passes every other check,
validation reports exactly one cycle error, attributed to the spec.devices
field path, whose detail renders the full cycle path with the starting
device name repeated at the end. -/
theorem single_cycle_single_error (s : ResourceSliceSpec) (n0 n1 n2 : String)
    (h01 : n0 ≠ n1) (h02 : n0 ≠ n2) (h12 : n1 ≠ n2)
    (hPool : validatePool s = []) (hSel : validateNodeSelection s = [])
    (hName : validateNodeNameFormat s = []) (hDriver : validateDriver s = [])
    (hCount : validateDeviceAndMixinCount s = [])
    (hDevs : validateDevices s = []) (hMix : validateDeviceMixins s = [])
    (hg : sliceGraph s = [(n0, [n1]), (n1, [n2]), (n2, [n0])]) :
    ValidateResourceSlice s =
      [⟨.invalid, "spec.devices", "",
        cycleErrMsg ++ ((n0 ++ " -> ") ++ ((n1 ++ " -> ") ++ ((n2 ++ " -> ") ++ n0)))⟩] := by
  unfold ValidateResourceSlice
  rw [hPool, hSel, hName, hDriver, hCount, hDevs, hMix]
  simp only [List.nil_append]
  unfold cycleErrorsOf
  rw [hg]
  have hfc : FindCycles [(n0, [n1]), (n1, [n2]), (n2, [n0])] = [[n0, n1, n2, n0]] := by
    simp [FindCycles, dfsFuel, dfsLoop, neighborsOf, cycleFrom,
      h01, h02, h12, Ne.symm h01, Ne.symm h02, Ne.symm h12]
  rw [hfc]
  simp only [List.map_cons, List.map_nil, renderCycle]

theorem single_cycle_single_error_witness :
    ValidateResourceSlice cycleSliceFx =
      [⟨.invalid, "spec.devices", "",
        cycleErrMsg ++ (("device-0-0" ++ " -> ") ++ (("device-0-1" ++ " -> ") ++
          (("device-0-2" ++ " -> ") ++ "device-0-0")))⟩] :=
  single_cycle_single_error cycleSliceFx "device-0-0" "device-0-1" "device-0-2"
    (by decide) (by decide) (by decide) rfl rfl rfl rfl rfl rfl rfl rfl

/-- C6: for a slice containing two node-disjoint three-device consumption
cycles and which passes every other check, validation produces exactly two
cycle errors, one per cycle, each attributed to the spec.devices field path
and each rendering only its own cycle's device names, in declared-device
traversal order. -/
theorem two_cycles_two_errors (s : ResourceSliceSpec) (a0 a1 a2 b0 b1 b2 : String)
    (ha01 : a0 ≠ a1) (ha02 : a0 ≠ a2) (ha12 : a1 ≠ a2)
    (hb01 : b0 ≠ b1) (hb02 : b0 ≠ b2) (hb12 : b1 ≠ b2)
    (hab00 : a0 ≠ b0) (hab01 : a0 ≠ b1) (hab02 : a0 ≠ b2)
    (hab10 : a1 ≠ b0) (hab11 : a1 ≠ b1) (hab12 : a1 ≠ b2)
    (hab20 : a2 ≠ b0) (hab21 : a2 ≠ b1) (hab22 : a2 ≠ b2)
    (hPool : validatePool s = []) (hSel : validateNodeSelection s = [])
    (hName : validateNodeNameFormat s = []) (hDriver : validateDriver s = [])
    (hCount : validateDeviceAndMixinCount s = [])
    (hDevs : validateDevices s = []) (hMix : validateDeviceMixins s = [])
    (hg : sliceGraph s =
      [(a0, [a1]), (a1, [a2]), (a2, [a0]), (b0, [b1]), (b1, [b2]), (b2, [b0])]) :
    ValidateResourceSlice s =
      [⟨.invalid, "spec.devices", "",
        cycleErrMsg ++ ((a0 ++ " -> ") ++ ((a1 ++ " -> ") ++ ((a2 ++ " -> ") ++ a0)))⟩,
       ⟨.invalid, "spec.devices", "",
        cycleErrMsg ++ ((b0 ++ " -> ") ++ ((b1 ++ " -> ") ++ ((b2 ++ " -> ") ++ b0)))⟩] := by
  unfold ValidateResourceSlice
  rw [hPool, hSel, hName, hDriver, hCount, hDevs, hMix]
  simp only [List.nil_append]
  unfold cycleErrorsOf
  rw [hg]
  have hfc : FindCycles
      [(a0, [a1]), (a1, [a2]), (a2, [a0]), (b0, [b1]), (b1, [b2]), (b2, [b0])] =
      [[a0, a1, a2, a0], [b0, b1, b2, b0]] := by
    simp [FindCycles, dfsFuel, dfsLoop, neighborsOf, cycleFrom,
      ha01, ha02, ha12, hb01, hb02, hb12,
      hab00, hab01, hab02, hab10, hab11, hab12, hab20, hab21, hab22,
      Ne.symm ha01, Ne.symm ha02, Ne.symm ha12,
      Ne.symm hb01, Ne.symm hb02, Ne.symm hb12,
      Ne.symm hab00, Ne.symm hab01, Ne.symm hab02,
      Ne.symm hab10, Ne.symm hab11, Ne.symm hab12,
      Ne.symm hab20, Ne.symm hab21, Ne.symm hab22]
  rw [hfc]
  simp only [List.map_cons, List.map_nil, renderCycle]

theorem two_cycles_two_errors_witness :
    ValidateResourceSlice twoCycleSliceFx =
      [⟨.invalid, "spec.devices", "",
        cycleErrMsg ++ (("device-0-0" ++ " -> ") ++ (("device-0-1" ++ " -> ") ++
          (("device-0-2" ++ " -> ") ++ "device-0-0")))⟩,
       ⟨.invalid, "spec.devices", "",
        cycleErrMsg ++ (("device-1-0" ++ " -> ") ++ (("device-1-1" ++ " -> ") ++
          (("device-1-2" ++ " -> ") ++ "device-1-0")))⟩] :=
  two_cycles_two_errors twoCycleSliceFx
    "device-0-0" "device-0-1" "device-0-2" "device-1-0" "device-1-1" "device-1-2"
    (by decide) (by decide) (by decide) (by decide) (by decide) (by decide)
    (by decide) (by decide) (by decide) (by decide) (by decide) (by decide)
    (by decide) (by decide) (by decide)
    rfl rfl rfl rfl rfl rfl rfl rfl

/-! ## Theorems: REST strategy feature gating -/

/-- C3: with the partitionable-devices feature disabled, creating a slice
strips the mixin/composite-device fields silently before validation (the
stripping itself produces no error), while updating against an old stored
object that already carried such fields preserves them unchanged, so an
otherwise-unchanged update of a valid such object passes validation. -/
theorem feature_gate_strip_asymmetry (s n old : ResourceSliceSpec)
    (hold : sliceHasPartitionableFields old = true)
    (hvalid : ValidateResourceSlice old = []) :
    (PrepareForCreate false s = stripPartitionableFields s) ∧
    (sliceHasPartitionableFields (PrepareForCreate false s) = false) ∧
    (PrepareForUpdate false n old = n) ∧
    (ValidateResourceSliceUpdate (PrepareForUpdate false old old) old = []) := by
  have hcreate : PrepareForCreate false s = stripPartitionableFields s := rfl
  have hupd : ∀ m, PrepareForUpdate false m old = m := by
    intro m
    unfold PrepareForUpdate dropDisabledFields
    simp [hold]
  refine ⟨hcreate, ?_, hupd n, ?_⟩
  · rw [hcreate]
    simp [sliceHasPartitionableFields, stripPartitionableFields, List.any_map,
      Function.comp]
  · rw [hupd old]
    unfold ValidateResourceSliceUpdate
    rw [hvalid]
    simp [validateImmutableFields]

theorem feature_gate_strip_asymmetry_witness :
    sliceHasPartitionableFields partitionableSliceFx = true ∧
    ValidateResourceSlice partitionableSliceFx = [] ∧
    PrepareForUpdate false partitionableSliceFx partitionableSliceFx = partitionableSliceFx ∧
    ValidateResourceSliceUpdate
      (PrepareForUpdate false partitionableSliceFx partitionableSliceFx)
      partitionableSliceFx = [] := by
  refine ⟨by decide, by decide, ?_, ?_⟩
  · exact (feature_gate_strip_asymmetry partitionableSliceFx partitionableSliceFx
      partitionableSliceFx (by decide) (by decide)).2.2.1
  · exact (feature_gate_strip_asymmetry partitionableSliceFx partitionableSliceFx
      partitionableSliceFx (by decide) (by decide)).2.2.2
